import Mathlib

/-!
Verification of the empleados-api repository.

The repository is a small Express/PostgreSQL CRUD API (candidates/employees,
their uploaded documents, organizational reference tables, and an
effective-dated employer tax-regime history).  This file gives a shallow
embedding of the parts of the code the claims are about:

* the JS truthiness / `Number()` coercions used by the handlers,
* the dynamic WHERE-clause builder of the list endpoints together with an
  evaluator for the produced predicates over in-memory rows,
* the query-normalization middleware of one server variant,
* the transactional `POST /api/candidatos` writer,
* the COALESCE-merge `PUT /api/candidatos/:id` and the
  `PUT /api/candidatos/:id/estado` handlers,
* `slugify` / `generateUniqueCode`,
* the effective-dated writer behind `POST /api/employer/tax`.

Dates in the list queries are modelled by their `yyyymmdd` integer encoding
(for well-formed dates, chronological order coincides with numeric order and
`EXTRACT(YEAR ...)` / `EXTRACT(MONTH ...)` are the obvious div/mod).  Dates in
the effective-dated history are modelled as integer day numbers, so that
`DATE d - INTERVAL 1 day` is `d - 1`.
-/

namespace EmpleadosApi

/-! ### JS-level helpers -/

/-- Truthiness of an optional string field, as JavaScript sees it:
`undefined` / `null` (here `none`) and the empty string are falsy. -/
def truthy : Option String → Bool
  | none => false
  | some s => s ≠ ""

/-- Test that models the `^[0-9]+$` regex used by the group filter. -/
def isDigitStr (s : String) : Bool := s ≠ "" && s.data.all Char.isDigit

/-- Decimal value of a digit string. -/
def digitsToNat (l : List Char) : Nat :=
  l.foldl (fun acc c => acc * 10 + (c.toNat - 48)) 0

/-- Value of `Number(s)` for the inputs this API receives: digit strings parse
to their value, the empty string is `0`, and anything else is `NaN`
(modelled as `none`). -/
def jsNumber (s : String) : Option Int :=
  if s = "" then some 0
  else if s.data.all Char.isDigit then some (Int.ofNat (digitsToNat s.data))
  else none

/-! ### Slug / unique-code generator (server.js, `slugify` and
`generateUniqueCode`) -/

/-- Base letter left after `normalize("NFKD").replace(/[̀-ͯ]/g,"")`
strips the combining marks: accented Latin letters lose their diacritic,
every other character (in particular all of ASCII) is unchanged. -/
def deaccent (c : Char) : Char :=
  match c with
  | 'á' => 'a' | 'é' => 'e' | 'í' => 'i' | 'ó' => 'o' | 'ú' => 'u'
  | 'à' => 'a' | 'è' => 'e' | 'ì' => 'i' | 'ò' => 'o' | 'ù' => 'u'
  | 'â' => 'a' | 'ê' => 'e' | 'î' => 'i' | 'ô' => 'o' | 'û' => 'u'
  | 'ä' => 'a' | 'ë' => 'e' | 'ï' => 'i' | 'ö' => 'o' | 'ü' => 'u'
  | 'ñ' => 'n' | 'ç' => 'c'
  | 'Á' => 'A' | 'É' => 'E' | 'Í' => 'I' | 'Ó' => 'O' | 'Ú' => 'U'
  | 'À' => 'A' | 'È' => 'E' | 'Ì' => 'I' | 'Ò' => 'O' | 'Ù' => 'U'
  | 'Â' => 'A' | 'Ê' => 'E' | 'Î' => 'I' | 'Ô' => 'O' | 'Û' => 'U'
  | 'Ä' => 'A' | 'Ë' => 'E' | 'Ï' => 'I' | 'Ö' => 'O' | 'Ü' => 'U'
  | 'Ñ' => 'N' | 'Ç' => 'C'
  | c => c

/-- Character class of the regex `[^A-Z0-9]` (negated): the characters kept
by `slugify` after upper-casing. -/
def isUpperAlnum (c : Char) : Bool :=
  ('A' ≤ c && c ≤ 'Z') || ('0' ≤ c && c ≤ '9')

/-- Replacement of every maximal run of non-`[A-Z0-9]` characters by a single
hyphen, i.e. `.replace(/[^A-Z0-9]+/g, "-")`.  The boolean records whether the
previous character belonged to such a run. -/
def collapseDash : Bool → List Char → List Char
  | _, [] => []
  | prevDash, c :: cs =>
    if isUpperAlnum c then c :: collapseDash false cs
    else if prevDash then collapseDash true cs
    else '-' :: collapseDash true cs

/-- Removal of hyphens at both ends, i.e. `.replace(/^-+|-+$/g, "")`. -/
def dropEdgeDashes (l : List Char) : List Char :=
  ((l.dropWhile (· == '-')).reverse.dropWhile (· == '-')).reverse

/-- The `slugify` helper of server.js: strip diacritics, upper-case, collapse
runs of non-alphanumerics to single hyphens, trim hyphens at the ends,
truncate to 32 characters. -/
def slugify (s : String) : String :=
  String.mk
    ((dropEdgeDashes (collapseDash false ((s.data.map deaccent).map Char.toUpper))).take 32)

/-- Loop body of `generateUniqueCode`: `code` is the current probe, `n` the
counter, and the next probe is built as `baseCode + "-" + (n+1)`.  The JS loop
is unbounded; it is given explicit fuel here. -/
def genAux (taken : String → Bool) (base : String) :
    String → Nat → Nat → Option String
  | _, _, 0 => none
  | code, n, Nat.succ fuel =>
    if taken code then genAux taken base (base ++ "-" ++ toString (n + 1)) (n + 1) fuel
    else some code

/-- The `generateUniqueCode(table, baseCode)` helper of server.js: start from
`baseCode || "ITEM"`, probe the table, and on a hit retry with suffixes
`baseCode-2`, `baseCode-3`, ...  `taken` is the table probe
(`SELECT 1 ... WHERE code=$1`). -/
def generateUniqueCode (taken : String → Bool) (baseCode : String) (fuel : Nat) :
    Option String :=
  genAux taken baseCode (if baseCode == "" then "ITEM" else baseCode) 1 fuel

/-- Code derivation of `POST /api/sites`: `generateUniqueCode("sites",
slugify(name) || "SITE")`. -/
def siteCode (taken : String → Bool) (name : String) (fuel : Nat) : Option String :=
  let base := slugify name
  generateUniqueCode taken (if base == "" then "SITE" else base) fuel

/-! ### Effective-dated tax-regime history (`POST /api/employer/tax`) -/

/-- Calendar dates of the history are modelled as integer day numbers, so the
`DATE $2 - INTERVAL 1 day` of the closing UPDATE is subtraction by one. -/
abbrev Day := Int

/-- Row of `employer_tax_history` for the single employer: surrogate id,
regime id, and the effective-dated period. -/
structure Period where
  id : Nat
  regime : Nat
  valid_from : Day
  valid_to : Option Day
deriving DecidableEq

/-- Ordering used by `ORDER BY valid_from DESC`. -/
def vfDesc (a b : Period) : Prop := b.valid_from ≤ a.valid_from

instance : DecidableRel vfDesc := fun a b =>
  inferInstanceAs (Decidable (b.valid_from ≤ a.valid_from))

instance : IsTotal Period vfDesc :=
  ⟨fun a b => le_total b.valid_from a.valid_from⟩

instance : IsTrans Period vfDesc :=
  ⟨fun _ _ _ h h2 => le_trans h2 h⟩

/-- One successful `POST /api/employer/tax` call, acting on the employer
history and the next surrogate id.  It mirrors the handler transaction:
select the open row (`valid_to IS NULL ORDER BY valid_from DESC LIMIT 1`),
close it at `vf - 1` (guarded by `id = $1 AND valid_to IS NULL`), then insert
the new open row. -/
def setTax (st : List Period × Nat) (regime : Nat) (vf : Day) : List Period × Nat :=
  match (List.insertionSort vfDesc (st.1.filter (fun p => p.valid_to.isNone))).head? with
  | some p =>
    ((st.1.map fun r =>
        if r.id == p.id && r.valid_to.isNone then { r with valid_to := some (vf - 1) }
        else r)
      ++ [⟨st.2, regime, vf, none⟩], st.2 + 1)
  | none => (st.1 ++ [⟨st.2, regime, vf, none⟩], st.2 + 1)

/-- History produced by a sequence of successful set-tax calls with effective
dates `ds`, starting from an empty history. -/
def runSetTaxes (ds : List Day) : List Period :=
  (ds.foldl (fun st d => setTax st 0 d) ([], 0)).1

/-- Closed form of the history after calls at dates `ds` with surrogate ids
starting at `k`: every period but the last is closed one day before its
successor opens, and the last one is open. -/
def expectedHist : Nat → List Day → List Period
  | _, [] => []
  | k, [d] => [⟨k, 0, d, none⟩]
  | k, d1 :: d2 :: rest => ⟨k, 0, d1, some (d2 - 1)⟩ :: expectedHist (k + 1) (d2 :: rest)

/-- Last effective date of a call sequence (0 for the empty sequence, which
never occurs in the claims). -/
def lastD : List Day → Day
  | [] => 0
  | [d] => d
  | _ :: d2 :: rest => lastD (d2 :: rest)

theorem insertionSort_singleton {α : Type} (r : α → α → Prop) [DecidableRel r] (a : α) :
    List.insertionSort r [a] = [a] := rfl

theorem expectedHist_singleton (k : Nat) (d : Day) :
    expectedHist k [d] = [⟨k, 0, d, none⟩] := rfl

theorem expectedHist_cons_cons (k : Nat) (x y : Day) (ds : List Day) :
    expectedHist k (x :: y :: ds) =
      ⟨k, 0, x, some (y - 1)⟩ :: expectedHist (k + 1) (y :: ds) := rfl

theorem expectedHist_filter (ds : List Day) : ∀ (k : Nat) (x : Day),
    (expectedHist k (x :: ds)).filter (fun p => p.valid_to.isNone) =
      [⟨k + ds.length, 0, lastD (x :: ds), none⟩] := by
  induction ds with
  | nil => intro k x; simp [expectedHist_singleton, lastD]
  | cons y ds ih =>
    intro k x
    rw [expectedHist_cons_cons, List.filter_cons]
    simp only [Option.isNone_some, Bool.false_eq_true, if_false]
    rw [ih (k + 1) y]
    have h1 : k + 1 + ds.length = k + (y :: ds).length := by
      simp only [List.length_cons]; omega
    have h2 : lastD (y :: ds) = lastD (x :: y :: ds) := rfl
    rw [h1, h2]

theorem expectedHist_close_append (ds : List Day) : ∀ (k : Nat) (x : Day) (d : Day),
    ((expectedHist k (x :: ds)).map fun r =>
        if r.id == k + ds.length && r.valid_to.isNone then
          { r with valid_to := some (d - 1) } else r)
      ++ [⟨k + ds.length + 1, 0, d, none⟩]
    = expectedHist k ((x :: ds) ++ [d]) := by
  induction ds with
  | nil =>
    intro k x d
    simp [expectedHist_singleton, expectedHist_cons_cons, List.singleton_append]
  | cons y ds ih =>
    intro k x d
    rw [expectedHist_cons_cons, List.map_cons]
    simp only [Option.isNone_some, Bool.and_false, Bool.false_eq_true, if_false]
    have hr : expectedHist k ((x :: y :: ds) ++ [d])
        = ⟨k, 0, x, some (y - 1)⟩ :: expectedHist (k + 1) ((y :: ds) ++ [d]) := rfl
    rw [hr, List.cons_append, List.cons.injEq]
    refine ⟨rfl, ?_⟩
    have harith : k + (y :: ds).length = (k + 1) + ds.length := by
      simp only [List.length_cons]; omega
    rw [harith]
    exact ih (k + 1) y d

theorem setTax_expected (ds : List Day) (k : Nat) (x d : Day) :
    setTax (expectedHist k (x :: ds), k + (x :: ds).length) 0 d
      = (expectedHist k ((x :: ds) ++ [d]), k + (x :: ds).length + 1) := by
  have hfil := expectedHist_filter ds k x
  simp only [setTax, hfil, insertionSort_singleton, List.head?_cons]
  rw [← expectedHist_close_append ds k x d]
  rfl

theorem fold_expected (ds : List Day) : ∀ (x : Day) (pre : List Day),
    (ds.foldl (fun st d => setTax st 0 d) (expectedHist 0 (x :: pre), (x :: pre).length)) =
      (expectedHist 0 ((x :: pre) ++ ds), (x :: pre).length + ds.length) := by
  induction ds with
  | nil => intro x pre; simp
  | cons d ds ih =>
    intro x pre
    rw [List.foldl_cons]
    have hstep := setTax_expected pre 0 x d
    simp only [Nat.zero_add] at hstep
    rw [hstep]
    have hshape : (expectedHist 0 ((x :: pre) ++ [d]), (x :: pre).length + 1)
        = (expectedHist 0 (x :: (pre ++ [d])), (x :: (pre ++ [d])).length) := by
      simp [List.cons_append]
    rw [hshape, ih x (pre ++ [d])]
    have hlist : (x :: (pre ++ [d])) ++ ds = (x :: pre) ++ (d :: ds) := by simp
    rw [hlist]
    simp only [Prod.mk.injEq, true_and]
    simp only [List.length_cons, List.length_append, List.length_nil,
      List.length_singleton]
    omega

/-- Closed form of the whole effective-dated run: starting from an empty
history, the calls at dates `d :: ds` produce exactly `expectedHist 0`. -/
theorem runSetTaxes_eq (d : Day) (ds : List Day) :
    runSetTaxes (d :: ds) = expectedHist 0 (d :: ds) := by
  unfold runSetTaxes
  rw [List.foldl_cons]
  have h0 : setTax (([] : List Period), 0) 0 d = (expectedHist 0 [d], [d].length) := by
    simp [setTax, expectedHist_singleton]
  rw [h0, fold_expected ds d []]
  simp

theorem expectedHist_length (ds : List Day) : ∀ k, (expectedHist k ds).length = ds.length := by
  induction ds with
  | nil => intro k; rfl
  | cons x ds ih =>
    intro k
    cases ds with
    | nil => rfl
    | cons y rest =>
      rw [expectedHist_cons_cons]
      simp only [List.length_cons]
      rw [ih (k + 1)]
      simp

theorem expectedHist_ne_nil (k : Nat) (x : Day) (ds : List Day) :
    expectedHist k (x :: ds) ≠ [] := by
  cases ds with
  | nil => simp [expectedHist_singleton]
  | cons y rest => rw [expectedHist_cons_cons]; simp

theorem expectedHist_getLast? (ds : List Day) : ∀ (k : Nat) (x : Day),
    (expectedHist k (x :: ds)).getLast? =
      some ⟨k + ds.length, 0, lastD (x :: ds), none⟩ := by
  induction ds with
  | nil => intro k x; rfl
  | cons y ds ih =>
    intro k x
    rw [expectedHist_cons_cons]
    obtain ⟨a, t, ht⟩ := List.exists_cons_of_ne_nil (expectedHist_ne_nil (k + 1) y ds)
    rw [ht, List.getLast?_cons_cons, ← ht, ih (k + 1) y]
    have h1 : k + 1 + ds.length = k + (y :: ds).length := by
      simp only [List.length_cons]; omega
    have h2 : lastD (y :: ds) = lastD (x :: y :: ds) := rfl
    rw [h1, h2]

/-- Default row used with `List.getD` when indexing histories. -/
def dummyP : Period := ⟨0, 0, 0, none⟩

theorem expectedHist_getD_zero (ds : List Day) (k : Nat) (x : Day) :
    ((expectedHist k (x :: ds)).getD 0 dummyP).valid_from = x := by
  cases ds with
  | nil => rfl
  | cons y rest => rfl

theorem expectedHist_succ (ds : List Day) : ∀ (k i : Nat), i + 1 < ds.length →
    ((expectedHist k ds).getD i dummyP).valid_to =
      some (((expectedHist k ds).getD (i + 1) dummyP).valid_from - 1) := by
  induction ds with
  | nil => intro k i hi; simp at hi
  | cons x ds ih =>
    intro k i hi
    cases ds with
    | nil => simp at hi
    | cons y rest =>
      rw [expectedHist_cons_cons]
      cases i with
      | zero =>
        rw [List.getD_cons_zero, List.getD_cons_succ]
        rw [expectedHist_getD_zero rest (k + 1) y]
      | succ j =>
        rw [List.getD_cons_succ, List.getD_cons_succ]
        exact ih (k + 1) j (by simpa using hi)

/-- C1: starting from an empty history, N successful `POST /api/employer/tax`
calls with strictly increasing effective dates leave exactly N rows, exactly
one open row — the one opened by the last call (its `valid_from` is the last
effective date and its `valid_to` is NULL) — and every closed row has
`valid_to` equal to the `valid_from` of the next-opened row minus one day. -/
theorem claim_C1_effective_dated_history (ds : List Day) (hne : ds ≠ [])
    (hinc : List.Chain' (· < ·) ds) :
    (runSetTaxes ds).length = ds.length ∧
    ((runSetTaxes ds).filter (fun p => p.valid_to.isNone)).length = 1 ∧
    ((runSetTaxes ds).getLast?).map (fun p => (p.valid_from, p.valid_to)) =
      some (lastD ds, none) ∧
    ∀ i, i + 1 < (runSetTaxes ds).length →
      ((runSetTaxes ds).getD i dummyP).valid_to =
        some (((runSetTaxes ds).getD (i + 1) dummyP).valid_from - 1) := by
  cases ds with
  | nil => cases hne rfl
  | cons x ds =>
    rw [runSetTaxes_eq]
    refine ⟨expectedHist_length (x :: ds) 0, ?_, ?_, ?_⟩
    · rw [expectedHist_filter ds 0 x]; rfl
    · rw [expectedHist_getLast? ds 0 x]; simp
    · intro i hi
      refine expectedHist_succ (x :: ds) 0 i ?_
      rwa [expectedHist_length] at hi

theorem claim_C1_witness :
    (runSetTaxes [1, 5, 9]).length = ([1, 5, 9] : List Day).length ∧
    ((runSetTaxes [1, 5, 9]).filter (fun p => p.valid_to.isNone)).length = 1 ∧
    ((runSetTaxes [1, 5, 9]).getLast?).map (fun p => (p.valid_from, p.valid_to)) =
      some (lastD [1, 5, 9], none) ∧
    ∀ i, i + 1 < (runSetTaxes [1, 5, 9]).length →
      ((runSetTaxes [1, 5, 9]).getD i dummyP).valid_to =
        some (((runSetTaxes [1, 5, 9]).getD (i + 1) dummyP).valid_from - 1) :=
  claim_C1_effective_dated_history [1, 5, 9] (by decide)
    (by norm_num [List.chain'_cons, List.chain'_singleton])

/-- C7: the code generator composes the `slugify` normalization (strip
diacritics, upper-case, collapse non-alphanumeric runs to single hyphens,
trim edge hyphens, truncate to 32) with a uniqueness probe: an untaken base
is returned as is, and with base code "ALPHA" already taken the next
generation yields "ALPHA-2" and a third yields "ALPHA-3". -/
theorem claim_C7_code_generator :
    (∀ (t : String → Bool) (base : String) (fuel : Nat),
        base ≠ "" → t base = false →
        generateUniqueCode t base (fuel + 1) = some base) ∧
    generateUniqueCode (fun c => c == "ALPHA") "ALPHA" 8 = some "ALPHA-2" ∧
    generateUniqueCode (fun c => c == "ALPHA" || c == "ALPHA-2") "ALPHA" 8 =
      some "ALPHA-3" ∧
    siteCode (fun c => c == "ALPHA") "Alpha" 8 = some "ALPHA-2" ∧
    slugify "Alpha" = "ALPHA" ∧
    slugify "  ¡Señor Pérez!  42 " = "SENOR-PEREZ-42" ∧
    slugify (String.mk (List.replicate 40 'a')) = String.mk (List.replicate 32 'A') := by
  refine ⟨?_, by decide, by decide, by decide, by decide, by decide, by decide⟩
  intro t base fuel hb ht
  unfold generateUniqueCode
  rw [if_neg (by simpa using hb)]
  rw [genAux]
  simp [ht]

theorem claim_C7_witness :
    generateUniqueCode (fun _ => false) "BETA" 4 = some "BETA" :=
  claim_C7_code_generator.1 (fun _ => false) "BETA" 3 (by decide) rfl

/-! ### Dynamic WHERE-clause builder of the list endpoints

The three handler variants share the same control flow and differ only in
the predicate texts they push: the candidatos controller (`list`), the
inline `GET /api/candidatos` of server.js, and the pg `GET /api/empleados`
handler (whose group-range predicate lacks the digit guard). -/

/-- Row of the `vw_api_candidatos` view (resp. `empleados` table) restricted
to the columns that the filters and the ORDER BY touch.  `fecha` is the
`yyyymmdd` encoding of the row date. -/
structure VRow where
  id : Nat
  fecha : Int
  estado : String
  grupo : String
deriving DecidableEq

/-- Value of `EXTRACT(YEAR FROM fecha)` on the encoded date. -/
def yearOf (f : Int) : Int := f / 10000

/-- Value of `EXTRACT(MONTH FROM fecha)` on the encoded date. -/
def monthOf (f : Int) : Int := (f % 10000) / 100

/-- Positional bound parameter: a numeric parameter (`none` is `NaN`) or a
string parameter. -/
inductive SqlParam where
  | num (v : Option Int)
  | str (s : String)
deriving DecidableEq

/-- The predicates any of the three list handlers can push, with their bound
parameters. -/
inductive Cond where
  | yearEq (p : Option Int)
  | monthEq (p : Option Int)
  | estadoEqCI (p : String)
  | estadoEqRaw (p : String)
  | grupoGuarded (lo hi : Option Int)
  | grupoUnguarded (lo hi : Option Int)
deriving DecidableEq

/-- Parameters pushed together with each predicate, in order. -/
def condParams : Cond → List SqlParam
  | .yearEq p => [.num p]
  | .monthEq p => [.num p]
  | .estadoEqCI s => [.str s]
  | .estadoEqRaw s => [.str s]
  | .grupoGuarded lo hi => [.num lo, .num hi]
  | .grupoUnguarded lo hi => [.num lo, .num hi]

/-- Full positional parameter list of a built WHERE clause. -/
def whereParams (conds : List Cond) : List SqlParam :=
  conds.foldr (fun c acc => condParams c ++ acc) []

/-- SQL text for each predicate of the candidatos controller `list`, with
positional placeholders starting at `i`. -/
def condSQLCtrl (i : Nat) : Cond → String
  | .yearEq _ => "EXTRACT(YEAR  FROM v.fecha) = $" ++ toString i
  | .monthEq _ => "EXTRACT(MONTH FROM v.fecha) = $" ++ toString i
  | .estadoEqCI _ => "LOWER(v.estado) = LOWER($" ++ toString i ++ ")"
  | .estadoEqRaw _ => "v.estado = $" ++ toString i
  | .grupoGuarded _ _ =>
      "(v.grupo ~ \x27^[0-9]+$\x27 AND CAST(v.grupo AS INT) BETWEEN $" ++
        toString i ++ " AND $" ++ toString (i + 1) ++ ")"
  | .grupoUnguarded _ _ =>
      "CAST(v.grupo AS INT) BETWEEN $" ++ toString i ++ " AND $" ++ toString (i + 1)

/-- SQL text for each predicate of the inline server.js handlers. -/
def condSQLSrv (i : Nat) : Cond → String
  | .yearEq _ => "EXTRACT(YEAR  FROM fecha) = $" ++ toString i
  | .monthEq _ => "EXTRACT(MONTH FROM fecha) = $" ++ toString i
  | .estadoEqCI _ => "LOWER(estado) = LOWER($" ++ toString i ++ ")"
  | .estadoEqRaw _ => "estado = $" ++ toString i
  | .grupoGuarded _ _ =>
      "(grupo ~ \x27^[0-9]+$\x27 AND CAST(grupo AS INT) BETWEEN $" ++
        toString i ++ " AND $" ++ toString (i + 1) ++ ")"
  | .grupoUnguarded _ _ =>
      "CAST(grupo AS INT) BETWEEN $" ++ toString i ++ " AND $" ++ toString (i + 1)

/-- The pushed predicate texts, numbering the placeholders left to right. -/
def renderPieces (f : Nat → Cond → String) : Nat → List Cond → List String
  | _, [] => []
  | i, c :: cs => f i c :: renderPieces f (i + (condParams c).length) cs

/-- Assembly `where.length ? "WHERE " + where.join(" AND ") : ""`. -/
def whereSQL (f : Nat → Cond → String) (conds : List Cond) : String :=
  if conds.isEmpty then "" else "WHERE " ++ String.intercalate " AND " (renderPieces f 1 conds)

/-- Query parameters of the candidatos list endpoints
(`ano`, `mes`, `estado`, `grupoInicio`, `grupoFin`); `none` is an absent
parameter. -/
structure ListQuery where
  ano : Option String := none
  mes : Option String := none
  estado : Option String := none
  grupoInicio : Option String := none
  grupoFin : Option String := none
deriving DecidableEq

/-- WHERE-clause builder of the candidatos controller `list`: defaults
`ano`/`mes` to the sentinel `"TODOS"`, pushes the year/month predicates when
the value differs from the sentinel, the case-insensitive estado predicate
when `estado` is truthy, and the digit-guarded group range when both bounds
are truthy. -/
def buildCondsCtrl (q : ListQuery) : List Cond :=
  (if q.ano.getD "TODOS" ≠ "TODOS" then [Cond.yearEq (jsNumber (q.ano.getD "TODOS"))]
   else []) ++
  (if q.mes.getD "TODOS" ≠ "TODOS" then [Cond.monthEq (jsNumber (q.mes.getD "TODOS"))]
   else []) ++
  (if truthy q.estado then [Cond.estadoEqCI (q.estado.getD "")] else []) ++
  (if truthy q.grupoInicio && truthy q.grupoFin then
    [Cond.grupoGuarded (jsNumber (q.grupoInicio.getD "")) (jsNumber (q.grupoFin.getD ""))]
   else [])

/-- WHERE-clause builder of the inline `GET /api/candidatos` of server.js:
same control flow as the controller, raw estado equality. -/
def buildCondsSrv (q : ListQuery) : List Cond :=
  (if q.ano.getD "TODOS" ≠ "TODOS" then [Cond.yearEq (jsNumber (q.ano.getD "TODOS"))]
   else []) ++
  (if q.mes.getD "TODOS" ≠ "TODOS" then [Cond.monthEq (jsNumber (q.mes.getD "TODOS"))]
   else []) ++
  (if truthy q.estado then [Cond.estadoEqRaw (q.estado.getD "")] else []) ++
  (if truthy q.grupoInicio && truthy q.grupoFin then
    [Cond.grupoGuarded (jsNumber (q.grupoInicio.getD "")) (jsNumber (q.grupoFin.getD ""))]
   else [])

/-- Query parameters of `GET /api/empleados`. -/
structure EmpQuery where
  ano : Option String := none
  mes : Option String := none
  grupo : Option String := none
  grupoInicio : Option String := none
  grupoFin : Option String := none
deriving DecidableEq

/-- WHERE-clause builder of the pg `GET /api/empleados` handler: year/month
only when both `ano` and `mes` are present, `grupo === "TODOS"` skips the
range, and the pushed range predicate casts `grupo` with no digit guard. -/
def buildCondsEmp (q : EmpQuery) : List Cond :=
  (if truthy q.ano && truthy q.mes then
    (if q.ano.getD "" ≠ "TODOS" then [Cond.yearEq (jsNumber (q.ano.getD ""))] else []) ++
    (if q.mes.getD "" ≠ "TODOS" then [Cond.monthEq (jsNumber (q.mes.getD ""))] else [])
   else []) ++
  (if truthy q.grupo && (q.grupo.getD "" == "TODOS") then []
   else if truthy q.grupoInicio && truthy q.grupoFin then
    [Cond.grupoUnguarded (jsNumber (q.grupoInicio.getD "")) (jsNumber (q.grupoFin.getD ""))]
   else [])

/-! ### Evaluation of the built predicates over rows -/

/-- Error raised by PostgreSQL when `CAST(grupo AS INT)` meets a non-numeric
value. -/
inductive SqlErr where
  | invalidCast
deriving DecidableEq

/-- PostgreSQL numeric equality with NaN parameters: `NaN = NaN` is true and
`NaN` equals no number. -/
def pgNumEq : Option Int → Option Int → Bool
  | some x, some y => x == y
  | none, none => true
  | _, _ => false

/-- PostgreSQL numeric order with NaN parameters: `NaN` sorts above every
number. -/
def pgNumLe : Option Int → Option Int → Bool
  | some x, some y => decide (x ≤ y)
  | some _, none => true
  | none, some _ => false
  | none, none => true

/-- Integer value of a digit-only `grupo` column (the value cast by
`CAST(grupo AS INT)`). -/
def grupoInt (s : String) : Int := Int.ofNat (digitsToNat s.data)

/-- Lower-casing used by `LOWER(...)`. -/
def lowerStr (s : String) : String := String.mk (s.data.map Char.toLower)

/-- Evaluation of one predicate on one row; the unguarded group range errors
on a non-numeric `grupo`. -/
def evalCond : Cond → VRow → Except SqlErr Bool
  | .yearEq p, r => .ok (pgNumEq (some (yearOf r.fecha)) p)
  | .monthEq p, r => .ok (pgNumEq (some (monthOf r.fecha)) p)
  | .estadoEqCI s, r => .ok (lowerStr r.estado == lowerStr s)
  | .estadoEqRaw s, r => .ok (r.estado == s)
  | .grupoGuarded lo hi, r =>
      .ok (isDigitStr r.grupo &&
        (pgNumLe lo (some (grupoInt r.grupo)) && pgNumLe (some (grupoInt r.grupo)) hi))
  | .grupoUnguarded lo hi, r =>
      if isDigitStr r.grupo then
        .ok (pgNumLe lo (some (grupoInt r.grupo)) && pgNumLe (some (grupoInt r.grupo)) hi)
      else .error .invalidCast

/-- Conjunction of the pushed predicates (they are joined with `AND`). -/
def evalConds : List Cond → VRow → Except SqlErr Bool
  | [], _ => .ok true
  | c :: cs, r =>
    match evalCond c r with
    | .error e => .error e
    | .ok b => if b then evalConds cs r else .ok false

/-- WHERE-filtering of the scanned rows, propagating the first error. -/
def filterRows (conds : List Cond) : List VRow → Except SqlErr (List VRow)
  | [] => .ok []
  | r :: rs =>
    match evalConds conds r with
    | .error e => .error e
    | .ok b =>
      match filterRows conds rs with
      | .error e => .error e
      | .ok rest => .ok (if b then r :: rest else rest)

/-- The order `ORDER BY fecha DESC, id DESC`: `a` may precede `b` when `b`
has a smaller date, or the same date and a smaller-or-equal id. -/
def ordRel (a b : VRow) : Prop :=
  b.fecha < a.fecha ∨ (b.fecha = a.fecha ∧ b.id ≤ a.id)

instance : DecidableRel ordRel := fun a b =>
  inferInstanceAs (Decidable (b.fecha < a.fecha ∨ (b.fecha = a.fecha ∧ b.id ≤ a.id)))

instance : IsTotal VRow ordRel := by
  constructor
  intro a b
  unfold ordRel
  omega

instance : IsTrans VRow ordRel := by
  constructor
  intro a b c hab hbc
  unfold ordRel at *
  omega

/-- Whole query: WHERE-filter the rows, then `ORDER BY fecha DESC, id DESC`. -/
def runQuery (rows : List VRow) (conds : List Cond) : Except SqlErr (List VRow) :=
  (filterRows conds rows).map (fun l => List.insertionSort ordRel l)

/-! ### Error-free evaluation for the guarded builders -/

/-- Predicates that can never raise a cast error. -/
def isSafe : Cond → Bool
  | .grupoUnguarded _ _ => false
  | _ => true

/-- Total evaluation, agreeing with `evalCond` on safe predicates. -/
def evalCondB : Cond → VRow → Bool
  | .yearEq p, r => pgNumEq (some (yearOf r.fecha)) p
  | .monthEq p, r => pgNumEq (some (monthOf r.fecha)) p
  | .estadoEqCI s, r => lowerStr r.estado == lowerStr s
  | .estadoEqRaw s, r => r.estado == s
  | .grupoGuarded lo hi, r =>
      isDigitStr r.grupo &&
        (pgNumLe lo (some (grupoInt r.grupo)) && pgNumLe (some (grupoInt r.grupo)) hi)
  | .grupoUnguarded lo hi, r =>
      isDigitStr r.grupo &&
        (pgNumLe lo (some (grupoInt r.grupo)) && pgNumLe (some (grupoInt r.grupo)) hi)

/-- Row-level WHERE predicate as a total boolean. -/
def rowPasses (conds : List Cond) (r : VRow) : Bool :=
  conds.all (fun c => evalCondB c r)

/-- Result of the controller list query on in-memory rows. -/
def listCtrl (rows : List VRow) (q : ListQuery) : List VRow :=
  List.insertionSort ordRel (rows.filter (rowPasses (buildCondsCtrl q)))

theorem evalCond_safe (c : Cond) (h : isSafe c = true) (r : VRow) :
    evalCond c r = .ok (evalCondB c r) := by
  cases c <;> simp_all [evalCond, evalCondB, isSafe]

theorem evalConds_safe (conds : List Cond) :
    conds.all isSafe = true → ∀ r, evalConds conds r = .ok (rowPasses conds r) := by
  induction conds with
  | nil => intro h r; rfl
  | cons c cs ih =>
    intro h r
    rw [List.all_cons, Bool.and_eq_true] at h
    rw [evalConds, evalCond_safe c h.1 r]
    have hr : rowPasses (c :: cs) r = (evalCondB c r && rowPasses cs r) := by
      simp [rowPasses, List.all_cons]
    rw [hr]
    cases hb : evalCondB c r
    · simp
    · simp [ih h.2 r]

theorem filterRows_safe (conds : List Cond) (h : conds.all isSafe = true) :
    ∀ rows : List VRow, filterRows conds rows = .ok (rows.filter (rowPasses conds)) := by
  intro rows
  induction rows with
  | nil => rfl
  | cons r rs ih =>
    rw [filterRows, evalConds_safe conds h r, ih, List.filter_cons]

theorem buildCondsCtrl_safe (q : ListQuery) : (buildCondsCtrl q).all isSafe = true := by
  unfold buildCondsCtrl
  split <;> split <;> split <;> split <;> rfl

/-! ### Query-normalization middleware of the second server.js variant -/

/-- Whitespace test of `String.prototype.trim`. -/
def isWsp (c : Char) : Bool := c == ' ' || c == '\t' || c == '\n' || c == '\r'

/-- The trim of `String(str).trim()` on the character list. -/
def trimChars (l : List Char) : List Char :=
  ((l.dropWhile isWsp).reverse.dropWhile isWsp).reverse

/-- The `normalizeQueryValue` helper: trim, strip diacritics, lower-case.
The middleware applies it to every string query value. -/
def normalizeQueryValue (s : String) : String :=
  String.mk (((trimChars s.data).map deaccent).map Char.toLower)

instance {α β : Type} [DecidableEq α] [DecidableEq β] : DecidableEq (Except α β) :=
  fun a b =>
    match a, b with
    | .error x, .error y =>
      match decEq x y with
      | isTrue h => isTrue (congrArg Except.error h)
      | isFalse h => isFalse fun hh => h (by injection hh)
    | .ok x, .ok y =>
      match decEq x y with
      | isTrue h => isTrue (congrArg Except.ok h)
      | isFalse h => isFalse fun hh => h (by injection hh)
    | .error _, .ok _ => isFalse fun hh => Except.noConfusion hh
    | .ok _, .error _ => isFalse fun hh => Except.noConfusion hh

/-- The middleware pass over the query: present values are normalized,
absent ones untouched. -/
def applyMw (q : ListQuery) : ListQuery where
  ano := q.ano.map normalizeQueryValue
  mes := q.mes.map normalizeQueryValue
  estado := q.estado.map normalizeQueryValue
  grupoInicio := q.grupoInicio.map normalizeQueryValue
  grupoFin := q.grupoFin.map normalizeQueryValue

/-- Sample row used by the concrete query evaluations. -/
def rowA : VRow := ⟨1, 20240815, "Aprobado", "51"⟩

/-- Sample row with a non-numeric `grupo`. -/
def rowABC : VRow := ⟨2, 20240801, "Aprobado", "ABC"⟩

/-- C3 counterexample: in the server.js variant that installs the
query-normalization middleware, supplying the sentinel `ano=TODOS` is NOT
the same as omitting `ano`: the middleware lower-cases the value to
`"todos"`, the handler no longer recognizes the sentinel, and it pushes a
year predicate with parameter `Number("todos") = NaN` — so the assembled
WHERE clause, the parameter list, and the result set all differ. -/
theorem claim_C3_counterexample :
    buildCondsSrv (applyMw { ano := some "TODOS" }) ≠ buildCondsSrv (applyMw {}) ∧
    whereParams (buildCondsSrv (applyMw { ano := some "TODOS" })) ≠
      whereParams (buildCondsSrv (applyMw {})) ∧
    whereSQL condSQLSrv (buildCondsSrv (applyMw { ano := some "TODOS" })) ≠
      whereSQL condSQLSrv (buildCondsSrv (applyMw {})) ∧
    runQuery [rowA] (buildCondsSrv (applyMw { ano := some "TODOS" })) = .ok [] ∧
    runQuery [rowA] (buildCondsSrv (applyMw {})) = .ok [rowA] := by
  refine ⟨by decide, by decide, by decide, by decide, by decide⟩

/-- C3 (amended): for the candidatos list handler itself — no normalization
middleware in front — supplying the sentinel (`"TODOS"` for `ano`/`mes`, the
empty-string/absent value for `estado`) produces exactly the same built
predicate list, WHERE-clause text, parameter list, and result set as
omitting the parameter. -/
theorem claim_C3_sentinel_filters (q : ListQuery) (rows : List VRow) :
    buildCondsCtrl { q with ano := some "TODOS" } = buildCondsCtrl { q with ano := none } ∧
    buildCondsCtrl { q with mes := some "TODOS" } = buildCondsCtrl { q with mes := none } ∧
    buildCondsCtrl { q with estado := some "" } = buildCondsCtrl { q with estado := none } ∧
    whereSQL condSQLCtrl (buildCondsCtrl { q with ano := some "TODOS" }) =
      whereSQL condSQLCtrl (buildCondsCtrl { q with ano := none }) ∧
    whereParams (buildCondsCtrl { q with ano := some "TODOS" }) =
      whereParams (buildCondsCtrl { q with ano := none }) ∧
    listCtrl rows { q with ano := some "TODOS" } = listCtrl rows { q with ano := none } ∧
    listCtrl rows { q with mes := some "TODOS" } = listCtrl rows { q with mes := none } ∧
    listCtrl rows { q with estado := some "" } = listCtrl rows { q with estado := none } :=
  ⟨rfl, rfl, rfl, rfl, rfl, rfl, rfl, rfl⟩

/-- C6: for every combination of filters, the controller list query returns
the WHERE-filtered rows sorted by `fecha` descending with `id` descending as
tiebreak (`ordRel`), and the output is a permutation of the filtered rows. -/
theorem claim_C6_order (rows : List VRow) (q : ListQuery) :
    runQuery rows (buildCondsCtrl q) = .ok (listCtrl rows q) ∧
    List.Sorted ordRel (listCtrl rows q) ∧
    (listCtrl rows q).Perm (rows.filter (rowPasses (buildCondsCtrl q))) := by
  refine ⟨?_, ?_, ?_⟩
  · unfold runQuery listCtrl
    rw [filterRows_safe _ (buildCondsCtrl_safe q) rows]
    rfl
  · exact List.sorted_insertionSort ordRel _
  · exact List.perm_insertionSort ordRel _

/-- Group predicate presence test. -/
def hasGroupCond (conds : List Cond) : Bool :=
  conds.any fun c =>
    match c with
    | .grupoGuarded _ _ => true
    | .grupoUnguarded _ _ => true
    | _ => false

/-- C10: the candidatos list appends the group-range predicate exactly when
both `grupoInicio` and `grupoFin` are present and truthy; supplying exactly
one bound builds the same predicates and returns the same result set as
supplying neither. -/
theorem claim_C10_group_range (q : ListQuery) (rows : List VRow) (s : String) :
    hasGroupCond (buildCondsCtrl q) = (truthy q.grupoInicio && truthy q.grupoFin) ∧
    buildCondsCtrl { q with grupoInicio := some s, grupoFin := none } =
      buildCondsCtrl { q with grupoInicio := none, grupoFin := none } ∧
    buildCondsCtrl { q with grupoInicio := none, grupoFin := some s } =
      buildCondsCtrl { q with grupoInicio := none, grupoFin := none } ∧
    listCtrl rows { q with grupoInicio := some s, grupoFin := none } =
      listCtrl rows { q with grupoInicio := none, grupoFin := none } ∧
    listCtrl rows { q with grupoInicio := none, grupoFin := some s } =
      listCtrl rows { q with grupoInicio := none, grupoFin := none } := by
  have h1 : buildCondsCtrl { q with grupoInicio := some s, grupoFin := none } =
      buildCondsCtrl { q with grupoInicio := none, grupoFin := none } := by
    simp [buildCondsCtrl, truthy, Bool.and_false]
  have h2 : buildCondsCtrl { q with grupoInicio := none, grupoFin := some s } =
      buildCondsCtrl { q with grupoInicio := none, grupoFin := none } := rfl
  refine ⟨?_, h1, h2, ?_, ?_⟩
  · unfold hasGroupCond buildCondsCtrl
    simp only [List.any_append]
    split <;> split <;> split <;> split <;> simp_all
  · unfold listCtrl; rw [h1]
  · unfold listCtrl; rw [h2]

/-- C4 counterexample: the pg `GET /api/empleados` handler pushes
`CAST(grupo AS INT) BETWEEN ...` with no digit guard, so with both bounds
present a row whose `grupo` is not a pure-digit string makes the query
raise a cast error (the handler answers 500) instead of being silently
excluded. -/
theorem claim_C4_counterexample :
    buildCondsEmp { grupoInicio := some "1", grupoFin := some "10" } =
      [Cond.grupoUnguarded (some 1) (some 10)] ∧
    runQuery [rowABC] (buildCondsEmp { grupoInicio := some "1", grupoFin := some "10" }) =
      .error SqlErr.invalidCast ∧
    runQuery [rowABC] (buildCondsEmp {}) = .ok [rowABC] := by
  refine ⟨by decide, by decide, by decide⟩

/-- C4 (amended): in the candidatos list query the digit pattern guards the
cast: with both group bounds present and truthy, a row whose `grupo` is not
a pure-digit string is excluded without any error, and with the group filter
absent the same row is included exactly when the remaining filters accept
it. -/
theorem claim_C4_group_guard (rows : List VRow) (q : ListQuery) (row : VRow)
    (hnd : isDigitStr row.grupo = false)
    (hgi : truthy q.grupoInicio = true) (hgf : truthy q.grupoFin = true) :
    row ∉ listCtrl rows q ∧
    (row ∈ rows →
      (row ∈ listCtrl rows { q with grupoInicio := none, grupoFin := none } ↔
        rowPasses (buildCondsCtrl { q with grupoInicio := none, grupoFin := none }) row
          = true)) := by
  constructor
  · intro hmem
    unfold listCtrl at hmem
    rw [List.mem_insertionSort, List.mem_filter] at hmem
    have hg : Cond.grupoGuarded (jsNumber (q.grupoInicio.getD ""))
        (jsNumber (q.grupoFin.getD "")) ∈ buildCondsCtrl q := by
      unfold buildCondsCtrl
      simp [hgi, hgf]
    have hall := hmem.2
    unfold rowPasses at hall
    rw [List.all_eq_true] at hall
    have hcond := hall _ hg
    simp [evalCondB, hnd] at hcond
  · intro hrows
    unfold listCtrl
    rw [List.mem_insertionSort, List.mem_filter]
    simp [hrows]

theorem claim_C4_witness :
    rowABC ∉ listCtrl [rowABC] { grupoInicio := some "1", grupoFin := some "99" } ∧
    (rowABC ∈ [rowABC] →
      (rowABC ∈ listCtrl [rowABC] { grupoInicio := none, grupoFin := none } ↔
        rowPasses (buildCondsCtrl { grupoInicio := none, grupoFin := none }) rowABC
          = true)) :=
  claim_C4_group_guard [rowABC] { grupoInicio := some "1", grupoFin := some "99" } rowABC
    (by decide) (by decide) (by decide)

/-! ### Candidato mutations: transactional create, partial update, estado -/

/-- Row of the `candidatos` table. -/
structure Cand where
  id : Nat
  dni : String
  apellido_paterno : String
  apellido_materno : String
  nombres : String
  sede : Option String
  turno_horario : Option String
  grupo : Option String
  estado : String
deriving DecidableEq

/-- Row of `candidato_documentos`. -/
structure DocRow where
  candidato_id : Nat
  tipo : String
  url : String
deriving DecidableEq

/-- The relational store visible to the candidato handlers, with the id
sequence. -/
structure DB where
  cands : List Cand
  docs : List DocRow
  nextId : Nat
deriving DecidableEq

/-- Request body of the candidato mutations; `none` is an absent field. -/
structure CandBody where
  dni : Option String := none
  apellido_paterno : Option String := none
  apellido_materno : Option String := none
  nombres : Option String := none
  sede : Option String := none
  turno_horario : Option String := none
  grupo : Option String := none
  estado : Option String := none
deriving DecidableEq

/-- HTTP outcome of a mutation: `{ok:true,id}`, `{ok:true}`, or an error
status. -/
inductive Resp where
  | okWithId (id : Nat)
  | okNoId
  | err (status : Nat)
deriving DecidableEq

/-- Error thrown by the storage layer or the uploader; the handlers only
inspect `code` (`"23505"` is the unique-violation signal). -/
structure DbErr where
  code : Option String
deriving DecidableEq

/-- Modelled from the spec: the `estado` column default of a freshly created
candidato (the schema is not part of the repo; the create INSERT does not
set `estado`). -/
def dbDefaultEstado : String := "En Revision"

/-- Status mapping of the create catch block:
`e.code === "23505" → 409`, anything else `→ 500`. -/
def errResp (e : DbErr) : Resp :=
  if e.code == some "23505" then .err 409 else .err 500

/-- The fixed ordered document category list of the create handler. -/
def tipos : List String :=
  ["dni", "certificados", "antecedentes", "medicos", "capacitacion", "cv"]

/-- The required-fields check
`!dni || !apellido_paterno || !apellido_materno || !nombres` (negated). -/
def requiredOk (b : CandBody) : Bool :=
  truthy b.dni && truthy b.apellido_paterno && truthy b.apellido_materno &&
    truthy b.nombres

/-- Sequential upload of the files of one category: each file carries its
predetermined uploader outcome; the first rejection aborts. -/
def uploadFiles (tipo : String) :
    List (Except DbErr String) → Except DbErr (List (String × String))
  | [] => .ok []
  | f :: fs =>
    match f with
    | .error e => .error e
    | .ok url =>
      match uploadFiles tipo fs with
      | .error e => .error e
      | .ok rest => .ok ((tipo, url) :: rest)

/-- The `for (const tipo of tipos)` loop: uploads per category in the fixed
order, collecting `(tipo, url)` pairs. -/
def uploadAllTipos (reqFiles : List (String × List (Except DbErr String))) :
    List String → Except DbErr (List (String × String))
  | [] => .ok []
  | t :: ts =>
    match uploadFiles t ((reqFiles.lookup t).getD []) with
    | .error e => .error e
    | .ok xs =>
      match uploadAllTipos reqFiles ts with
      | .error e => .error e
      | .ok rest => .ok (xs ++ rest)

/-- `POST /api/candidatos`: validate required fields, BEGIN, insert the
parent row (the dni unique constraint raises 23505 on a duplicate), upload
all files, bulk-insert the document rows when any (`docInsertFault` is the
predetermined outcome of that statement), COMMIT; any failure rolls the
transaction back, leaving the store unchanged, and is mapped by `errResp`. -/
def createCandidato (db : DB) (b : CandBody)
    (reqFiles : List (String × List (Except DbErr String)))
    (docInsertFault : Option DbErr) : Resp × DB :=
  if !(requiredOk b) then (.err 400, db)
  else if db.cands.any (fun c => c.dni == b.dni.getD "") then
    (errResp ⟨some "23505"⟩, db)
  else
    match uploadAllTipos reqFiles tipos with
    | .error e => (errResp e, db)
    | .ok ups =>
      match ups, docInsertFault with
      | _ :: _, some e => (errResp e, db)
      | _, _ =>
        (.okWithId db.nextId,
         ⟨db.cands ++ [⟨db.nextId, b.dni.getD "", b.apellido_paterno.getD "",
            b.apellido_materno.getD "", b.nombres.getD "", b.sede, b.turno_horario,
            b.grupo, dbDefaultEstado⟩],
          db.docs ++ ups.map (fun tu => ⟨db.nextId, tu.1, tu.2⟩),
          db.nextId + 1⟩)

/-- The `x || null` coercion applied to every update parameter: absent and
empty-string values both become NULL. -/
def orNull (x : Option String) : Option String :=
  match x with
  | some s => if s == "" then none else some s
  | none => none

/-- `COALESCE(param, column)` for a nullable column. -/
def coalesceO (p : Option String) (old : Option String) : Option String :=
  match p with
  | some s => some s
  | none => old

/-- The SET list of `PUT /api/candidatos/:id`: every field is
`COALESCE(param || null, current)`. -/
def mergeCand (c : Cand) (b : CandBody) : Cand :=
  { c with
    apellido_paterno := (orNull b.apellido_paterno).getD c.apellido_paterno
    apellido_materno := (orNull b.apellido_materno).getD c.apellido_materno
    nombres := (orNull b.nombres).getD c.nombres
    sede := coalesceO (orNull b.sede) c.sede
    turno_horario := coalesceO (orNull b.turno_horario) c.turno_horario
    grupo := coalesceO (orNull b.grupo) c.grupo
    estado := (orNull b.estado).getD c.estado }

/-- `PUT /api/candidatos/:id`: UPDATE with the COALESCE merge on the matched
row; 404 when no row matches (rowCount 0). -/
def updateCandidato (db : DB) (id : Nat) (b : CandBody) : Resp × DB :=
  if db.cands.any (fun c => c.id == id) then
    (.okNoId,
     { db with
        cands := db.cands.map (fun c => if c.id == id then mergeCand c b else c) })
  else (.err 404, db)

/-- The fixed estado enum of the controller. -/
def ESTADOS : List String := ["En Revision", "Cancelado", "Aprobado"]

/-- The `["..."].includes(estado)` membership test. -/
def validEstado (x : Option String) : Bool :=
  match x with
  | some e => ESTADOS.contains e
  | none => false

/-- `PUT /api/candidatos/:id/estado`: reject an estado outside the enum with
400, update only the `estado` column of the matched row, 404 when no row
matches. -/
def updateEstado (db : DB) (id : Nat) (estado : Option String) : Resp × DB :=
  if !(validEstado estado) then (.err 400, db)
  else if db.cands.any (fun c => c.id == id) then
    (.okNoId,
     { db with
        cands := db.cands.map (fun c =>
          if c.id == id then { c with estado := estado.getD "" } else c) })
  else (.err 404, db)

/-- C2: when the parent insert succeeds (required fields present, dni not a
duplicate) but a document upload or the document bulk-insert fails, the
transaction is rolled back — the store is exactly the initial one, so
neither the candidato row nor any of its document rows exists — and the
failure is reported 409 when its code is 23505, else 500. -/
theorem claim_C2_rollback (db : DB) (b : CandBody)
    (reqFiles : List (String × List (Except DbErr String))) (docFault : Option DbErr)
    (hreq : requiredOk b = true)
    (hdup : db.cands.any (fun c => c.dni == b.dni.getD "") = false) :
    (∀ e, uploadAllTipos reqFiles tipos = .error e →
      createCandidato db b reqFiles docFault =
        ((if e.code == some "23505" then Resp.err 409 else Resp.err 500), db)) ∧
    (∀ e u us, uploadAllTipos reqFiles tipos = .ok (u :: us) → docFault = some e →
      createCandidato db b reqFiles docFault =
        ((if e.code == some "23505" then Resp.err 409 else Resp.err 500), db)) := by
  constructor
  · intro e he
    simp [createCandidato, hreq, hdup, he, errResp]
  · intro e u us hups hdoc
    subst hdoc
    simp [createCandidato, hreq, hdup, hups, errResp]

theorem claim_C2_witness :
    createCandidato ⟨[], [], 0⟩
      ⟨some "123", some "A", some "B", some "C", none, none, none, none⟩
      [("dni", [Except.error ⟨none⟩])] none
    = (Resp.err 500, ⟨[], [], 0⟩) :=
  (claim_C2_rollback ⟨[], [], 0⟩
      ⟨some "123", some "A", some "B", some "C", none, none, none, none⟩
      [("dni", [Except.error ⟨none⟩])] none (by decide) (by decide)).1
    ⟨none⟩ (by decide)

/-- C5: a create request missing any of the four required fields fails 400
and writes nothing; a duplicate dni fails 409 (store unchanged); any other
storage failure (an upload or document-insert fault whose code is not 23505)
fails 500 with the store unchanged; and a successful request answers
`{ok:true, id}` with the generated id and appends exactly the new row. -/
theorem claim_C5_create_validation (db : DB) (b : CandBody)
    (reqFiles : List (String × List (Except DbErr String))) (docFault : Option DbErr) :
    (requiredOk b = false →
      createCandidato db b reqFiles docFault = (.err 400, db)) ∧
    (requiredOk b = true →
      db.cands.any (fun c => c.dni == b.dni.getD "") = true →
      createCandidato db b reqFiles docFault = (.err 409, db)) ∧
    (∀ e, requiredOk b = true →
      db.cands.any (fun c => c.dni == b.dni.getD "") = false →
      e.code ≠ some "23505" →
      (uploadAllTipos reqFiles tipos = .error e ∨
        (∃ u us, uploadAllTipos reqFiles tipos = .ok (u :: us) ∧ docFault = some e)) →
      createCandidato db b reqFiles docFault = (.err 500, db)) ∧
    (∀ ups, requiredOk b = true →
      db.cands.any (fun c => c.dni == b.dni.getD "") = false →
      uploadAllTipos reqFiles tipos = .ok ups →
      (ups = [] ∨ docFault = none) →
      (createCandidato db b reqFiles docFault).1 = .okWithId db.nextId ∧
      (createCandidato db b reqFiles docFault).2.cands =
        db.cands ++ [⟨db.nextId, b.dni.getD "", b.apellido_paterno.getD "",
          b.apellido_materno.getD "", b.nombres.getD "", b.sede, b.turno_horario,
          b.grupo, dbDefaultEstado⟩]) := by
  refine ⟨?_, ?_, ?_, ?_⟩
  · intro h
    simp [createCandidato, h]
  · intro hreq hdup
    simp [createCandidato, hreq, hdup, errResp]
  · intro e hreq hdup hcode hcase
    have hc : (e.code == some "23505") = false := by
      simpa using hcode
    rcases hcase with he | ⟨u, us, hups, hdoc⟩
    · simp [createCandidato, hreq, hdup, he, errResp, hc]
    · subst hdoc
      simp [createCandidato, hreq, hdup, hups, errResp, hc]
  · intro ups hreq hdup hups hcase
    have hres : createCandidato db b reqFiles docFault =
        (.okWithId db.nextId,
         ⟨db.cands ++ [⟨db.nextId, b.dni.getD "", b.apellido_paterno.getD "",
            b.apellido_materno.getD "", b.nombres.getD "", b.sede, b.turno_horario,
            b.grupo, dbDefaultEstado⟩],
          db.docs ++ ups.map (fun tu => ⟨db.nextId, tu.1, tu.2⟩),
          db.nextId + 1⟩) := by
      rcases hcase with rfl | rfl
      · simp [createCandidato, hreq, hdup, hups]
      · cases ups <;> simp [createCandidato, hreq, hdup, hups]
    rw [hres]
    exact ⟨rfl, rfl⟩

theorem claim_C5_witness :
    (createCandidato ⟨[], [], 0⟩
        ⟨some "123", some "A", some "B", some "C", none, none, none, none⟩ [] none).1 =
      .okWithId 0 ∧
    (createCandidato ⟨[], [], 0⟩
        ⟨some "123", some "A", some "B", some "C", none, none, none, none⟩ [] none).2.cands =
      [] ++ [⟨0, "123", "A", "B", "C", none, none, none, dbDefaultEstado⟩] :=
  (claim_C5_create_validation ⟨[], [], 0⟩
      ⟨some "123", some "A", some "B", some "C", none, none, none, none⟩ [] none).2.2.2
    [] (by decide) (by decide) (by decide) (Or.inl rfl)

/-- Sample stored candidato row. -/
def candX : Cand := ⟨1, "123", "X", "Y", "Z", none, none, none, "En Revision"⟩

/-- Sample store holding only `candX`. -/
def dbX : DB := ⟨[candX], [], 2⟩

/-- C8 counterexample: a field supplied as the empty string does NOT take
the supplied value — the handler coerces it to NULL (`x || null`) and the
COALESCE keeps the prior value, so the claim "each supplied field takes the
supplied value" fails at the supplied value `""`. -/
theorem claim_C8_counterexample :
    ({ apellido_paterno := some "" } : CandBody).apellido_paterno = some "" ∧
    (updateCandidato dbX 1 { apellido_paterno := some "" }).1 = Resp.okNoId ∧
    (updateCandidato dbX 1 { apellido_paterno := some "" }).2.cands.map
        (fun c => c.apellido_paterno) = ["X"] ∧
    "X" ≠ "" := by
  refine ⟨rfl, by decide, by decide, by decide⟩

/-- C8 (amended): `PUT /api/candidatos/:id` on an existing record answers
`{ok}` and replaces only the matched row by its COALESCE merge: a field
supplied with a non-empty value takes that value, a field absent or supplied
as the empty string keeps the prior value, `id` and `dni` are never touched,
no other row or table changes; on an unknown id it answers 404 and changes
nothing. -/
theorem claim_C8_coalesce_update (db : DB) (id : Nat) (b : CandBody) :
    (db.cands.any (fun c => c.id == id) = false →
      updateCandidato db id b = (.err 404, db)) ∧
    (db.cands.any (fun c => c.id == id) = true →
      (updateCandidato db id b).1 = .okNoId ∧
      (updateCandidato db id b).2.docs = db.docs ∧
      (updateCandidato db id b).2.nextId = db.nextId ∧
      ∀ i, (updateCandidato db id b).2.cands.get? i =
        (db.cands.get? i).map (fun c => if c.id == id then mergeCand c b else c)) ∧
    (∀ i c, db.cands.get? i = some c → (c.id == id) = false →
      (updateCandidato db id b).2.cands.get? i = some c) ∧
    (∀ c : Cand,
      (mergeCand c b).id = c.id ∧
      (mergeCand c b).dni = c.dni ∧
      ((b.apellido_paterno = none ∨ b.apellido_paterno = some "") →
        (mergeCand c b).apellido_paterno = c.apellido_paterno) ∧
      (∀ s, b.apellido_paterno = some s → s ≠ "" →
        (mergeCand c b).apellido_paterno = s) ∧
      ((b.apellido_materno = none ∨ b.apellido_materno = some "") →
        (mergeCand c b).apellido_materno = c.apellido_materno) ∧
      (∀ s, b.apellido_materno = some s → s ≠ "" →
        (mergeCand c b).apellido_materno = s) ∧
      ((b.nombres = none ∨ b.nombres = some "") →
        (mergeCand c b).nombres = c.nombres) ∧
      (∀ s, b.nombres = some s → s ≠ "" → (mergeCand c b).nombres = s) ∧
      ((b.sede = none ∨ b.sede = some "") → (mergeCand c b).sede = c.sede) ∧
      (∀ s, b.sede = some s → s ≠ "" → (mergeCand c b).sede = some s) ∧
      ((b.turno_horario = none ∨ b.turno_horario = some "") →
        (mergeCand c b).turno_horario = c.turno_horario) ∧
      (∀ s, b.turno_horario = some s → s ≠ "" →
        (mergeCand c b).turno_horario = some s) ∧
      ((b.grupo = none ∨ b.grupo = some "") → (mergeCand c b).grupo = c.grupo) ∧
      (∀ s, b.grupo = some s → s ≠ "" → (mergeCand c b).grupo = some s) ∧
      ((b.estado = none ∨ b.estado = some "") → (mergeCand c b).estado = c.estado) ∧
      (∀ s, b.estado = some s → s ≠ "" → (mergeCand c b).estado = s)) := by
  refine ⟨?_, ?_, ?_, ?_⟩
  · intro h
    simp [updateCandidato, h]
  · intro h
    refine ⟨by simp [updateCandidato, h], by simp [updateCandidato, h],
      by simp [updateCandidato, h], ?_⟩
    intro i
    simp [updateCandidato, h, List.get?_map]
  · intro i c hc hne
    unfold updateCandidato
    split
    · show (db.cands.map fun c => if c.id == id then mergeCand c b else c).get? i = some c
      rw [List.get?_map, hc]
      show some (if c.id == id then mergeCand c b else c) = some c
      rw [if_neg (by simpa using hne)]
    · simpa using hc
  · intro c
    refine ⟨rfl, rfl, ?_, ?_, ?_, ?_, ?_, ?_, ?_, ?_, ?_, ?_, ?_, ?_, ?_, ?_⟩
    all_goals
      first
      | (intro h; rcases h with h | h <;> simp [mergeCand, orNull, coalesceO, h])
      | (intro s hs hne; simp [mergeCand, orNull, coalesceO, hs, hne])

theorem claim_C8_witness :
    updateCandidato dbX 5 {} = (Resp.err 404, dbX) ∧
    (updateCandidato dbX 1 { nombres := some "NEW" }).1 = Resp.okNoId :=
  ⟨(claim_C8_coalesce_update dbX 5 {}).1 (by decide),
   ((claim_C8_coalesce_update dbX 1 { nombres := some "NEW" }).2.1 (by decide)).1⟩

/-- C9: `PUT /api/candidatos/:id/estado` rejects an estado outside the fixed
three-value enum with 400 leaving the store unchanged; with a valid estado
and no matching row it answers 404 leaving the store unchanged; otherwise it
answers `{ok}` and sets exactly the `estado` field of the matched row,
leaving every other field and row intact. -/
theorem claim_C9_estado (db : DB) (id : Nat) (est : Option String) :
    (validEstado est = false → updateEstado db id est = (.err 400, db)) ∧
    (validEstado est = true → db.cands.any (fun c => c.id == id) = false →
      updateEstado db id est = (.err 404, db)) ∧
    (∀ e, est = some e → validEstado est = true →
      db.cands.any (fun c => c.id == id) = true →
      (updateEstado db id est).1 = .okNoId ∧
      (updateEstado db id est).2.docs = db.docs ∧
      (updateEstado db id est).2.nextId = db.nextId ∧
      ∀ i, (updateEstado db id est).2.cands.get? i =
        (db.cands.get? i).map
          (fun c => if c.id == id then { c with estado := e } else c)) := by
  refine ⟨?_, ?_, ?_⟩
  · intro h
    simp [updateEstado, h]
  · intro hv h
    simp [updateEstado, hv, h]
  · intro e he hv h
    subst he
    refine ⟨by simp [updateEstado, hv, h], by simp [updateEstado, hv, h],
      by simp [updateEstado, hv, h], ?_⟩
    intro i
    simp [updateEstado, hv, h, List.get?_map]

theorem claim_C9_witness :
    updateEstado dbX 1 (some "Foo") = (Resp.err 400, dbX) ∧
    (updateEstado dbX 1 (some "Aprobado")).1 = Resp.okNoId :=
  ⟨(claim_C9_estado dbX 1 (some "Foo")).1 (by decide),
   ((claim_C9_estado dbX 1 (some "Aprobado")).2.2 "Aprobado" rfl (by decide)
      (by decide)).1⟩

/-! ### In-memory demo `GET /api/empleados` (first server.js variant)

This handler filters a copy of the in-memory `empleados` array and answers
it as is: there is no sort of any kind. -/

/-- JavaScript `===` on two `Number(...)` results: any comparison involving
`NaN` is false (unlike the PostgreSQL numeric semantics above). -/
def jsNumEq : Option Int → Option Int → Bool
  | some x, some y => x == y
  | _, _ => false

/-- JavaScript `<=` on two `Number(...)` results: false when either side is
`NaN`. -/
def jsNumLe : Option Int → Option Int → Bool
  | some x, some y => decide (x ≤ y)
  | _, _ => false

/-- `(e.fecha || "").slice(0, 4)`: the year part of the date string. -/
def sliceYear (s : String) : String := String.mk (s.data.take 4)

/-- `(e.fecha || "").slice(5, 7)`: the month part of the date string. -/
def sliceMonth (s : String) : String := String.mk ((s.data.drop 5).take 2)

/-- Element of the in-memory `empleados` demo array (the document URL fields
play no role in filtering or ordering). -/
structure MemRow where
  id : Nat
  nombre : String
  sede : String
  grupo : String
  fecha : String
deriving DecidableEq

/-- The demo `empleados` array of the first server.js variant, in its stored
(date-ascending) order. -/
def demoEmpleados : List MemRow :=
  [⟨1, "JUAN PEREZ LOPEZ", "Lima / Mañana", "51", "2024-08-01"⟩,
   ⟨2, "MARIA GARCIA FLORES", "Arequipa / Tarde", "51", "2024-08-05"⟩,
   ⟨3, "CARLOS RAMOS DIAZ", "Cusco / Noche", "52", "2024-09-12"⟩]

/-- The year/month row predicate of the in-memory handler:
`(ano === "TODOS" || y === String(ano)) && (mes === "TODOS" ||
Number(m) === Number(mes))`. -/
def memRowAnoMes (ano mes : String) (r : MemRow) : Bool :=
  ((ano == "TODOS") || (sliceYear r.fecha == ano)) &&
    ((mes == "TODOS") || jsNumEq (jsNumber (sliceMonth r.fecha)) (jsNumber mes))

/-- The in-memory `GET /api/empleados` handler: filter by year/month when
both are present, then by the numeric group range unless `grupo === "TODOS"`,
and answer the result in stored order — the handler performs no sort. -/
def empleadosMem (rows : List MemRow) (q : EmpQuery) : List MemRow :=
  let r1 := if truthy q.ano && truthy q.mes then
      rows.filter (memRowAnoMes (q.ano.getD "") (q.mes.getD ""))
    else rows
  if truthy q.grupo && (q.grupo.getD "" == "TODOS") then r1
  else if truthy q.grupoInicio && truthy q.grupoFin then
    r1.filter (fun e =>
      jsNumLe (jsNumber (q.grupoInicio.getD "")) (jsNumber e.grupo) &&
        jsNumLe (jsNumber e.grupo) (jsNumber (q.grupoFin.getD "")))
  else r1

/-- Chronological key of an ISO `YYYY-MM-DD` string: its digits read as the
`yyyymmdd` number. -/
def memDateKey (s : String) : Nat := digitsToNat (s.data.filter Char.isDigit)

/-- The claimed output order on the in-memory rows: date descending, id
descending as tiebreak. -/
def memOrdRel (a b : MemRow) : Prop :=
  memDateKey b.fecha < memDateKey a.fecha ∨
    (memDateKey b.fecha = memDateKey a.fecha ∧ b.id ≤ a.id)

instance : DecidableRel memOrdRel := fun a b =>
  inferInstanceAs (Decidable (memDateKey b.fecha < memDateKey a.fecha ∨
    (memDateKey b.fecha = memDateKey a.fecha ∧ b.id ≤ a.id)))

/-- C6 counterexample: the in-memory `GET /api/empleados` handler — one of
the list endpoints the claim quantifies over — returns the filtered array
with no sort at all: on the demo store with no filters the response is the
stored, date-ascending array, which violates the claimed date-descending
order (its first record carries the oldest date, not the newest). -/
theorem claim_C6_counterexample :
    empleadosMem demoEmpleados {} = demoEmpleados ∧
    (empleadosMem demoEmpleados {}).map (fun r => r.fecha) =
      ["2024-08-01", "2024-08-05", "2024-09-12"] ∧
    ¬ List.Pairwise memOrdRel (empleadosMem demoEmpleados {}) := by
  refine ⟨by decide, by decide, by decide⟩

end EmpleadosApi
